import Mathlib

/-!
# Verification of the KK_Icons taskpane search widget

Shallow embedding of the Streamline icon-search taskpane
(`src/unnamed/part_001`, the `taskpane.ts` body): the API client
(`StreamlineAPIService.makeRequest`, `searchFamily`, `downloadIconSVG`),
the search controller (`performSearch`, debounce wiring in
`initializeIconFinder`), the results-count label (`updateResultsCount`),
the `StreamlineIcon → Icon` mapping, and the clipboard copy flow
(`insertStreamlineIcon`).

Browser/DOM effects are made explicit: a network request is a value
describing the URL/params/headers the code hands to `fetch`; the
environment's answer (HTTP response or thrown error, clipboard write
outcome) is passed in as an argument; what the code renders or shows is
returned as part of the result.  JavaScript errors are modelled as a
structure carrying the message and whether the value is a `TypeError`
(the only `instanceof` test the code performs).
-/

/-- A JavaScript exception as far as the code inspects it: its `message`
string and whether it is an `instanceof TypeError` (the only class test
in `makeRequest`'s catch block). -/
structure JsError where
  isTypeError : Bool
  message : String
deriving Repr, DecidableEq

/-- An HTTP response as the code reads it: `status`, `statusText` and the
body (kept opaque as a string; `response.json()` parsing is abstracted —
the ok-path hands the body through). -/
structure HttpResponse where
  status : Nat
  statusText : String
  body : String
deriving Repr, DecidableEq

/-- `response.ok` per the fetch specification: status in the range 200–299. -/
def respOk (r : HttpResponse) : Bool :=
  200 ≤ r.status && r.status < 300

/-- A search request as built by `StreamlineAPIService.searchFamily`:
the family slug in the path, the optional `query` parameter (dropped when
falsy, i.e. empty), and the `page` / `per_page` parameters. -/
structure SearchRequest where
  familySlug : String
  query : Option String
  page : Nat
  perPage : Nat
deriving Repr, DecidableEq

/-- A download request as built by `StreamlineAPIService.downloadIconSVG`:
the full URL string, the HTTP method (fetch default GET) and the accept
header. -/
structure DownloadRequest where
  url : String
  method : String
  accept : String
deriving Repr, DecidableEq

/-- Wire shape of one catalog search result
(interface `StreamlineIcon` in the source). -/
structure StreamlineIcon where
  hash : String
  name : String
  imagePreviewUrl : String
  isFree : Bool
  familySlug : String
  familyName : String
  categorySlug : String
  categoryName : String
  subcategorySlug : String
  subcategoryName : String
deriving Repr, DecidableEq

/-- Pagination block of the wire response. -/
structure SearchPagination where
  total : Nat
  hasMore : Bool
  offset : Nat
  nextOffset : Nat
deriving Repr, DecidableEq

/-- Wire shape of a search response
(interface `StreamlineSearchResponse` in the source). -/
structure StreamlineSearchResponse where
  query : String
  results : List StreamlineIcon
  pagination : SearchPagination
deriving Repr, DecidableEq

/-- Internal UI icon (interface `Icon` in the source). -/
structure Icon where
  hash : String
  name : String
  family : String
  category : String
  svgUrl : Option String
  tags : List String
deriving Repr, DecidableEq

/-! ## String primitives mirroring the JavaScript ones used by the code -/

/-- JavaScript `String.prototype.trim` whitespace class: WhiteSpace and
LineTerminator code points of the ECMAScript specification. -/
def isJsWhitespace (c : Char) : Bool :=
  c = ' ' || c = '\t' || c = '\n' || c = '\x0d' || c = '\x0b' || c = '\x0c' ||
  c = '\u00A0' || c = '\u1680' || ('\u2000' ≤ c && c ≤ '\u200A') ||
  c = '\u2028' || c = '\u2029' || c = '\u202F' || c = '\u205F' ||
  c = '\u3000' || c = '\uFEFF'

/-- JavaScript `String.prototype.trim`: strip leading and trailing
whitespace. -/
def jsTrim (s : String) : String :=
  ⟨((s.data.dropWhile isJsWhitespace).reverse.dropWhile isJsWhitespace).reverse⟩

/-- `listPrefixOf a b` holds when `a` is an initial segment of `b`. -/
def listPrefixOf : List Char → List Char → Bool
  | [], _ => true
  | _ :: _, [] => false
  | a :: as, b :: bs => a = b && listPrefixOf as bs

/-- `listSub needle hay`: `needle` occurs contiguously inside `hay`. -/
def listSub (needle : List Char) : List Char → Bool
  | [] => listPrefixOf needle []
  | c :: cs => listPrefixOf needle (c :: cs) || listSub needle cs

/-- JavaScript `String.prototype.includes`. -/
def strIncludes (hay needle : String) : Bool :=
  listSub needle.data hay.data

/-- JavaScript `String.prototype.startsWith`. -/
def jsStartsWith (s pre : String) : Bool :=
  listPrefixOf pre.data s.data

/-- `Substr m n`: the string `n` occurs contiguously inside `m`
(specification-level "the message contains ..."). -/
def Substr (m n : String) : Prop :=
  ∃ l r, m = l ++ n ++ r

/-- Insert `,` after every third character of a reversed digit list
(grouping step of `Number.prototype.toLocaleString`). -/
def commaGroupRev : List Char → List Char
  | [] => []
  | [a] => [a]
  | [a, b] => [a, b]
  | [a, b, c] => [a, b, c]
  | a :: b :: c :: d :: rest => a :: b :: c :: ',' :: commaGroupRev (d :: rest)

/-- `Number.prototype.toLocaleString` for a nonnegative integer in the
default en-US locale: decimal digits with `,` thousands separators. -/
def toLocaleString (n : Nat) : String :=
  ⟨(commaGroupRev (toString n).data.reverse).reverse⟩

/-! ## API client: `StreamlineAPIService` -/

/-- `streamlineConfig.baseUrl` in the source. -/
def streamlineBaseUrl : String := "/api/streamline"

/-- The message-content test of `makeRequest`'s catch block:
`error.message.includes('fetch') || error.message.includes('NetworkError')
|| error.message.includes('Failed to fetch')`. -/
def msgIndicatesNetwork (m : String) : Bool :=
  strIncludes m "fetch" || strIncludes m "NetworkError" || strIncludes m "Failed to fetch"

/-- The fixed prefix of the CORS/network diagnostic message thrown by
`makeRequest` (the attempted URL is appended to it). -/
def corsMsgPrefix : String :=
  "CORS/Network error: The Streamline API is blocking requests from Office Add-ins. This is a common issue where the API server doesn\x27t allow cross-origin requests from Office domains. URL attempted: "

/-- `makeRequest`'s catch block: a `TypeError` whose message includes
`fetch`, `NetworkError` or `Failed to fetch` is replaced by a new `Error`
carrying the CORS/network diagnostic and the attempted URL; every other
exception is re-thrown as-is. -/
def handleFetchError (url : String) (e : JsError) : JsError :=
  if e.isTypeError && msgIndicatesNetwork e.message then
    ⟨false, corsMsgPrefix ++ url⟩
  else e

/-- The non-ok branch of `makeRequest`: the error thrown for a non-2xx
response status. -/
def statusError (status : Nat) (statusText : String) : JsError :=
  if status = 401 then
    ⟨false, "Invalid API key. Please check your Streamline API credentials."⟩
  else if status = 429 then
    ⟨false, "Rate limit exceeded. Please wait a moment before searching again."⟩
  else
    ⟨false, "API request failed: " ++ toString status ++ " " ++ statusText⟩

/-- `StreamlineAPIService.makeRequest`, response phase.  `fetched` is the
outcome of `fetch`: a response, or a thrown error.  Errors thrown inside
the `try` (the fetch rejection as well as the non-ok status errors) pass
through the catch block (`handleFetchError`) before reaching the caller.
The ok-path returns the body (`response.json()` parsing abstracted). -/
def makeRequest (url : String) (fetched : Except JsError HttpResponse) :
    Except JsError String :=
  match fetched with
  | .error e => .error (handleFetchError url e)
  | .ok resp =>
    if respOk resp then .ok resp.body
    else .error (handleFetchError url (statusError resp.status resp.statusText))

/-- `StreamlineAPIService.searchFamily`'s request construction: `page` and
`per_page` always, `query` only when truthy (non-empty) — both the
`if (query)` guard and the `if (value)` guard in `makeRequest`'s
searchParams loop drop an empty string. -/
def searchFamilyRequest (familySlug : String) (query : Option String)
    (page : Nat) (perPage : Nat) : SearchRequest :=
  { familySlug := familySlug
    query := match query with
      | none => none
      | some q => if q = "" then none else some q
    page := page
    perPage := perPage }

/-- URL built by `StreamlineAPIService.downloadIconSVG`: for a proxy base
path (starting with `/`) the current origin is prepended; an absolute base
is used as-is. -/
def downloadUrl (origin iconHash : String) : String :=
  if jsStartsWith streamlineBaseUrl "/" then
    origin ++ streamlineBaseUrl ++ "/icons/" ++ iconHash ++ "/download/svg?size=48&responsive=false"
  else
    streamlineBaseUrl ++ "/icons/" ++ iconHash ++ "/download/svg?size=48&responsive=false"

/-- `StreamlineAPIService.downloadIconSVG`: the request it issues (fetch
with no method option, hence GET, and accept `image/svg+xml`) and its
outcome given the environment's response: ok → body text, non-ok → throw
`Failed to download SVG: <status>`. -/
def downloadIconSVG (origin iconHash : String) (resp : HttpResponse) :
    DownloadRequest × Except JsError String :=
  (⟨downloadUrl origin iconHash, "GET", "image/svg+xml"⟩,
   if respOk resp then .ok resp.body
   else .error ⟨false, "Failed to download SVG: " ++ toString resp.status⟩)

/-! ## Search controller: `performSearch` and friends -/

/-- The `response.results.map(...)` conversion inside `performSearch`:
`hash`/`name` copied, `family` from `familySlug`, `category` from
`categoryName || familyName` (JavaScript `||`: an empty `categoryName` is
falsy), `tags` always empty, `svgUrl` from `imagePreviewUrl`. -/
def toIcon (s : StreamlineIcon) : Icon :=
  { hash := s.hash
    name := s.name
    family := s.familySlug
    category := if s.categoryName = "" then s.familyName else s.categoryName
    tags := []
    svgUrl := some s.imagePreviewUrl }

/-- The request `performSearch` hands to `searchFamily` for a given input
field value: none when the trimmed term is empty (the empty-term guard
returns first), otherwise family `streamline-light`, the trimmed term,
`currentPage` freshly set to 1, and the default `perPage = 100`. -/
def searchRequestOf (inputValue : String) : Option SearchRequest :=
  let searchTerm := jsTrim inputValue
  if searchTerm = "" then none
  else some (searchFamilyRequest "streamline-light" (some searchTerm) 1 100)

/-- `updateResultsCount`: `customMessage` wins when truthy; count 0 and 1
have fixed labels; otherwise `toLocaleString` count plus, when both `page`
and `totalPages` are truthy (present and nonzero), a page suffix. -/
def updateResultsCount (count : Nat) (customMessage : Option String)
    (page totalPages : Option Nat) : String :=
  if (match customMessage with | some s => s ≠ "" | none => false : Bool) then
    customMessage.getD ""
  else if count = 0 then "No icons found"
  else if count = 1 then "1 icon found"
  else
    let base := toLocaleString count ++ " icons found"
    match page, totalPages with
    | some p, some t =>
      if p ≠ 0 && t ≠ 0 then
        base ++ " (Page " ++ toString p ++ " of " ++ toString t ++ ")"
      else base
    | _, _ => base

/-- The `updateResultsCount` call at the end of `performSearch`'s success
path: `page = Math.floor(offset / 100) + 1`,
`totalPages = Math.ceil(total / 100)`. -/
def searchResultLabel (total offset : Nat) : String :=
  updateResultsCount total none (some (offset / 100 + 1)) (some ((total + 99) / 100))

/-- The module-level mutable variables read and written by
`performSearch`. -/
structure ControllerState where
  currentIcons : List Icon
  currentPage : Nat
  isLoading : Bool
deriving Repr, DecidableEq

/-- What one `performSearch` run showed: the request it issued (if any),
whether the idle prompt (`showApiKeyMessage`) was rendered, the icons
handed to `displayIcons`, the results-count label, and the error panel
message. -/
structure SearchView where
  request : Option SearchRequest
  idlePrompt : Bool
  gridIcons : Option (List Icon)
  countLabel : Option String
  errorMsg : Option String
deriving Repr, DecidableEq

/-- The view of a `performSearch` run that returned before dispatching. -/
def noView : SearchView :=
  ⟨none, false, none, none, none⟩

/-- `performSearch` (lines 256–305): early return while `isLoading`;
empty trimmed term → idle prompt, no request; otherwise dispatch to
`searchFamily('streamline-light', searchTerm, 1)` and — given the
settlement `outcome` of that call — either store/render the mapped icons
and the results-count label, or render the error message
(`error.message || "Failed to search icons. Please try again."`, the
default substituted for a falsy/empty message); the `finally` block
clears `isLoading` on both paths. -/
def performSearch (st : ControllerState) (inputValue : String)
    (outcome : Except JsError StreamlineSearchResponse) :
    ControllerState × SearchView :=
  if st.isLoading then (st, noView)
  else
    let searchTerm := jsTrim inputValue
    if searchTerm = "" then (st, { noView with idlePrompt := true })
    else
      let req := searchFamilyRequest "streamline-light" (some searchTerm) 1 100
      match outcome with
      | .ok response =>
        let icons := response.results.map toIcon
        ({ currentIcons := icons, currentPage := 1, isLoading := false },
         { request := some req
           idlePrompt := false
           gridIcons := some icons
           countLabel := some (searchResultLabel response.pagination.total response.pagination.offset)
           errorMsg := none })
      | .error e =>
        ({ st with currentPage := 1, isLoading := false },
         { request := some req
           idlePrompt := false
           gridIcons := none
           countLabel := none
           errorMsg := some (if e.message = "" then "Failed to search icons. Please try again." else e.message) })

/-! ## Single-flight step machine

`performSearch` is an async function: its synchronous prefix (the
`isLoading` test, the empty-term guard, setting `isLoading := true` and
issuing the request) runs when a trigger fires, and its continuation (the
`finally` block clearing `isLoading`) runs when the awaited `searchFamily`
promise settles.  The step machine below separates those two halves so the
in-flight window is observable: `trigger v` is a call to `performSearch`
with input field value `v`, `settle ok` is the settlement (fulfilment or
rejection) of the one awaited request. -/

/-- Machine state: the `isLoading` and `currentPage` module variables plus
a ghost counter of requests issued but not yet settled. -/
structure MState where
  isLoading : Bool
  currentPage : Nat
  inFlight : Nat
deriving Repr, DecidableEq

/-- State at module load: `currentPage = 1`, `isLoading = false`. -/
def initMState : MState :=
  ⟨false, 1, 0⟩

/-- Events: a call to `performSearch` (reading input value `v`), or the
settlement of the in-flight `searchFamily` promise (`ok` = fulfilled). -/
inductive SEv where
  | trigger (v : String)
  | settle (ok : Bool)
deriving Repr, DecidableEq

/-- One step: `trigger` runs `performSearch`'s synchronous prefix — a
no-op while `isLoading` or for an empty trimmed term, otherwise it sets
`isLoading`, resets `currentPage` to 1 and emits the request.  `settle`
runs the continuation: the `finally` block clears `isLoading` whatever
the outcome was. -/
def mstep (s : MState) (e : SEv) : MState × List SearchRequest :=
  match e with
  | .trigger v =>
    if s.isLoading then (s, [])
    else
      match searchRequestOf v with
      | none => (s, [])
      | some r => ({ isLoading := true, currentPage := 1, inFlight := s.inFlight + 1 }, [r])
  | .settle _ =>
    ({ isLoading := false, currentPage := s.currentPage, inFlight := s.inFlight - 1 }, [])

/-- Run a trace of events, collecting every request issued along the way. -/
def runTrace (s : MState) : List SEv → MState × List SearchRequest
  | [] => (s, [])
  | e :: rest =>
    let p := mstep s e
    let q := runTrace p.1 rest
    (q.1, p.2 ++ q.2)

/-- A trace is valid when every `settle` answers an actually outstanding
request (a promise settles only after it was created). -/
def validFrom (s : MState) : List SEv → Bool
  | [] => true
  | e :: rest =>
    (match e with
     | .settle _ => decide (1 ≤ s.inFlight)
     | .trigger _ => true) && validFrom (mstep s e).1 rest

/-! ## Debounce timer semantics (`initializeIconFinder`)

The input handler runs `clearTimeout(searchTimeout)` then schedules
`performSearch` 500 ms out.  The timer callback reads the input field's
value at fire time (the handler closes over no text).  Events are
`(time, field value)` pairs with strictly increasing times; a pending
timer whose deadline has passed fires before the next input event is
handled, and — the trace ending in a quiet period — the last pending
timer fires after the final event. -/

/-- Debounce machine state: the pending timer's fire time (if any), the
current input field value, and the accumulated `(fireTime, valueAtFire)`
list of timer callbacks that have run. -/
structure DebounceState where
  pending : Option Nat
  value : String
  fires : List (Nat × String)
deriving Repr, DecidableEq

/-- Handle one input event at time `t` leaving field value `text`: first
let a pending timer whose deadline already passed fire (reading the field
value as it was), then cancel any pending timer and schedule a new one at
`t + 500`. -/
def stepInput (s : DebounceState) (t : Nat) (text : String) : DebounceState :=
  let s' : DebounceState :=
    match s.pending with
    | some f =>
      if f ≤ t then { pending := none, value := s.value, fires := s.fires ++ [(f, s.value)] }
      else s
    | none => s
  { pending := some (t + 500), value := text, fires := s'.fires }

/-- Timer callbacks fired over a whole input trace that ends in a quiet
period of at least 500 ms: fold the events, then let the last pending
timer fire. -/
def debounceFires (inputs : List (Nat × String)) : List (Nat × String) :=
  let final := inputs.foldl (fun s p => stepInput s p.1 p.2) ⟨none, "", []⟩
  match final.pending with
  | some f => final.fires ++ [(f, final.value)]
  | none => final.fires

/-- Searches issued by the fired timer callbacks, each callback running
`performSearch` from a settled (non-loading) state on the field value it
sees. -/
def debouncedSearches (inputs : List (Nat × String)) : List SearchRequest :=
  (debounceFires inputs).filterMap (fun p => searchRequestOf p.2)

/-- `burstFrom t es`: the events `es` have strictly increasing times, each
within 500 ms of its predecessor (`t` being the previous time). -/
def burstFrom (t : Nat) : List (Nat × String) → Bool
  | [] => true
  | (u, _) :: rest => t < u && u < t + 500 && burstFrom u rest

/-- Strictly increasing event times, `t` being the previous time. -/
def strictTimes (t : Nat) : List (Nat × String) → Bool
  | [] => true
  | (u, _) :: rest => t < u && strictTimes u rest

/-- A well-formed input trace: event times strictly increase. -/
def strictTrace : List (Nat × String) → Bool
  | [] => true
  | (t, _) :: rest => strictTimes t rest

/-- Last event of a nonempty trace, head passed separately. -/
def lastEvent (p : Nat × String) : List (Nat × String) → Nat × String
  | [] => p
  | q :: rest => lastEvent q rest

/-! ## Clipboard copy flow (`insertStreamlineIcon`) -/

/-- Trace of the inner clipboard block of `insertStreamlineIcon`: the
payload of the attempted `navigator.clipboard.write` (content of the
`image/svg+xml` blob and of the `text/plain` blob), the content of the
fallback `writeText` when it was attempted, and the outcome — the success
message shown, or the error that escapes the inner `catch` to the caller. -/
structure CopyTrace where
  multiPayload : String × String
  textAttempt : Option String
  outcome : Except JsError String
deriving Repr

/-- The inner `try`/`catch` of `insertStreamlineIcon` (lines 374–394):
one `clipboard.write` carrying the SVG content both as `image/svg+xml`
and as `text/plain`; on success the PowerPoint success message; on any
throw, `clipboard.writeText` with the identical content and, on success,
the distinct text-fallback message; if that too throws, the `writeText`
error propagates to the enclosing handler unmodified.  `multiW` and
`textW` are the environment's outcomes for the two writes. -/
def clipboardCopy (svgContent iconName : String)
    (multiW textW : Except JsError Unit) : CopyTrace :=
  match multiW with
  | .ok _ =>
    ⟨(svgContent, svgContent), none,
     .ok (iconName ++ " SVG icon copied to clipboard! Press Ctrl+V to paste in PowerPoint.")⟩
  | .error _ =>
    match textW with
    | .ok _ =>
      ⟨(svgContent, svgContent), some svgContent,
       .ok (iconName ++ " SVG copied as text to clipboard! Press Ctrl+V to paste.")⟩
    | .error e2 => ⟨(svgContent, svgContent), some svgContent, .error e2⟩

/-- What one `insertStreamlineIcon` run showed: the success notification
or the error notification (with the `error.message || default`
substitution of the outer catch). -/
structure InsertView where
  successMsg : Option String
  errorMsg : Option String
deriving Repr, DecidableEq

/-- `insertStreamlineIcon` (lines 368–399): download the SVG, run the
clipboard block, show the success message, or — when the download or both
writes failed — show the escaped error's message (default text for a
falsy/empty message). -/
def insertStreamlineIcon (iconHash iconName : String) (origin : String)
    (resp : HttpResponse) (multiW textW : Except JsError Unit) :
    DownloadRequest × InsertView :=
  let dl := downloadIconSVG origin iconHash resp
  match dl.2 with
  | .error e =>
    (dl.1, ⟨none, some (if e.message = "" then "Failed to copy icon. Please try again." else e.message)⟩)
  | .ok svgContent =>
    match (clipboardCopy svgContent iconName multiW textW).outcome with
    | .ok msg => (dl.1, ⟨some msg, none⟩)
    | .error e =>
      (dl.1, ⟨none, some (if e.message = "" then "Failed to copy icon. Please try again." else e.message)⟩)

/-! ## Helper lemmas -/

/-- Occurrence of the middle component of a concatenation. -/
theorem substr_mid (l n r : String) : Substr (l ++ n ++ r) n :=
  ⟨l, r, rfl⟩

/-- Occurrence of the final component of a concatenation. -/
theorem substr_suffix (l n : String) : Substr (l ++ n) n :=
  ⟨l, "", by rw [String.append_empty]⟩

/-- Occurrence of the whole string in itself. -/
theorem substr_self (n : String) : Substr n n :=
  ⟨"", "", by simp [String.append_empty]⟩

/-- `statusError` never produces a `TypeError`. -/
theorem statusError_isTypeError (status : Nat) (statusText : String) :
    (statusError status statusText).isTypeError = false := by
  unfold statusError
  split
  · rfl
  · split <;> rfl

/-- The catch block passes a non-`TypeError` through unchanged. -/
theorem handleFetchError_of_not_typeError (url : String) (e : JsError)
    (h : e.isTypeError = false) : handleFetchError url e = e := by
  simp [handleFetchError, h]

/-- A string of whitespace only trims to the empty string. -/
theorem jsTrim_of_all_whitespace (s : String)
    (h : s.data.all isJsWhitespace = true) : jsTrim s = "" := by
  unfold jsTrim
  have h1 : s.data.dropWhile isJsWhitespace = [] :=
    List.dropWhile_eq_nil_iff.mpr (by simpa [List.all_eq_true] using h)
  rw [h1]
  rfl

/-- `searchRequestOf` for a non-blank input value: family
`streamline-light`, trimmed query, page 1, 100 per page. -/
theorem searchRequestOf_of_ne (v : String) (h : jsTrim v ≠ "") :
    searchRequestOf v =
      some (searchFamilyRequest "streamline-light" (some (jsTrim v)) 1 100) := by
  simp [searchRequestOf, h]

/-! ## C3: two-tier clipboard write -/

/-- C3: the clipboard copy first attempts one write carrying both an
`image/svg+xml` and a `text/plain` representation of the same markup; if
that write throws for any reason, a plain-text-only write of the identical
markup is attempted; each successful path shows its own distinct success
message containing the icon name; if both writes fail, the error surfaces
to the caller unmodified. -/
theorem clipboard_two_tier (svg name : String) (tw : Except JsError Unit)
    (e1 e2 : JsError) :
    (clipboardCopy svg name (.ok ()) tw).multiPayload = (svg, svg)
    ∧ (clipboardCopy svg name (.error e1) tw).multiPayload = (svg, svg)
    ∧ (clipboardCopy svg name (.ok ()) tw).textAttempt = none
    ∧ (clipboardCopy svg name (.ok ()) tw).outcome =
        .ok (name ++ " SVG icon copied to clipboard! Press Ctrl+V to paste in PowerPoint.")
    ∧ (clipboardCopy svg name (.error e1) tw).textAttempt = some svg
    ∧ (clipboardCopy svg name (.error e1) (.ok ())).outcome =
        .ok (name ++ " SVG copied as text to clipboard! Press Ctrl+V to paste.")
    ∧ Substr (name ++ " SVG icon copied to clipboard! Press Ctrl+V to paste in PowerPoint.") name
    ∧ Substr (name ++ " SVG copied as text to clipboard! Press Ctrl+V to paste.") name
    ∧ (name ++ " SVG icon copied to clipboard! Press Ctrl+V to paste in PowerPoint.") ≠
        (name ++ " SVG copied as text to clipboard! Press Ctrl+V to paste.")
    ∧ (clipboardCopy svg name (.error e1) (.error e2)).outcome = .error e2 := by
  refine ⟨rfl, ?_, rfl, rfl, ?_, rfl, ⟨"", _, rfl⟩, ⟨"", _, rfl⟩, ?_, rfl⟩
  · cases tw <;> rfl
  · cases tw <;> rfl
  · intro hcontra
    have h := congrArg String.length hcontra
    rw [String.length_append, String.length_append] at h
    have h2 : (" SVG icon copied to clipboard! Press Ctrl+V to paste in PowerPoint."
          : String).length ≠
        (" SVG copied as text to clipboard! Press Ctrl+V to paste." : String).length := by
      decide
    omega

/-! ## C4: HTTP status error taxonomy -/

/-- C4: for every search request receiving a non-2xx response, status 401
yields an error whose message contains "Invalid API key", status 429 one
whose message contains "Rate limit", and any other non-ok status one
whose message contains the numeric status code and the status text. -/
theorem status_error_taxonomy (url : String) (resp : HttpResponse)
    (h : respOk resp = false) :
    ∃ e, makeRequest url (.ok resp) = .error e
    ∧ (resp.status = 401 → Substr e.message "Invalid API key")
    ∧ (resp.status = 429 → Substr e.message "Rate limit")
    ∧ (resp.status ≠ 401 → resp.status ≠ 429 →
        Substr e.message (toString resp.status) ∧ Substr e.message resp.statusText) := by
  refine ⟨statusError resp.status resp.statusText, ?_, ?_, ?_, ?_⟩
  · simp [makeRequest, h,
      handleFetchError_of_not_typeError url _ (statusError_isTypeError _ _)]
  · intro h401
    simp [statusError, h401]
    exact ⟨"", ". Please check your Streamline API credentials.", rfl⟩
  · intro h429
    have : resp.status ≠ 401 := by omega
    simp [statusError, h429, this]
    exact ⟨"", " exceeded. Please wait a moment before searching again.", rfl⟩
  · intro h1 h2
    have he : statusError resp.status resp.statusText =
        ⟨false, "API request failed: " ++ toString resp.status ++ " " ++ resp.statusText⟩ := by
      simp [statusError, h1, h2]
    rw [he]
    exact ⟨⟨"API request failed: ", " " ++ resp.statusText, String.append_assoc _ _ _⟩,
      ⟨"API request failed: " ++ toString resp.status ++ " ", "",
        (String.append_empty _).symm⟩⟩

/-- Witness for C4 at a concrete 500 response and a concrete 401
response. -/
theorem status_error_taxonomy_witness :
    (respOk ⟨500, "Server Error", ""⟩ = false
      ∧ ∃ e, makeRequest "u" (.ok ⟨500, "Server Error", ""⟩) = .error e
        ∧ Substr e.message (toString 500) ∧ Substr e.message "Server Error")
    ∧ (respOk ⟨401, "Unauthorized", ""⟩ = false
      ∧ ∃ e, makeRequest "u" (.ok ⟨401, "Unauthorized", ""⟩) = .error e
        ∧ Substr e.message "Invalid API key") := by
  constructor
  · obtain ⟨e, he, _, _, hgen⟩ :=
      status_error_taxonomy "u" ⟨500, "Server Error", ""⟩ (by decide)
    exact ⟨by decide, e, he, (hgen (by decide) (by decide)).1, (hgen (by decide) (by decide)).2⟩
  · obtain ⟨e, he, h401, _, _⟩ :=
      status_error_taxonomy "u" ⟨401, "Unauthorized", ""⟩ (by decide)
    exact ⟨by decide, e, he, h401 (by decide)⟩

/-! ## C5: transport-failure classification -/

/-- C5 counterexample: an exception that is not a `TypeError` but whose
message ("Failed to fetch") indicates a fetch/network condition is *not*
turned into the NetworkError carrying the attempted URL — the catch block
re-throws it unchanged, because its guard also requires
`error instanceof TypeError`. -/
theorem network_wrap_counterexample :
    msgIndicatesNetwork "Failed to fetch" = true
    ∧ handleFetchError "https://example.com/api" ⟨false, "Failed to fetch"⟩ =
        ⟨false, "Failed to fetch"⟩
    ∧ strIncludes
        (handleFetchError "https://example.com/api" ⟨false, "Failed to fetch"⟩).message
        "https://example.com/api" = false := by
  refine ⟨by decide, rfl, by decide⟩

/-- C5 (amended): an exception that is a `TypeError` and whose message
indicates a fetch/network condition becomes the CORS/NetworkError whose
message includes the attempted URL; every exception not matching both
conditions propagates to the caller unchanged. -/
theorem network_error_classification (url : String) (e : JsError) :
    (e.isTypeError = true → msgIndicatesNetwork e.message = true →
      handleFetchError url e = ⟨false, corsMsgPrefix ++ url⟩
      ∧ Substr (handleFetchError url e).message url)
    ∧ ((e.isTypeError && msgIndicatesNetwork e.message) = false →
      handleFetchError url e = e) := by
  constructor
  · intro ht hm
    have h1 : handleFetchError url e = ⟨false, corsMsgPrefix ++ url⟩ := by
      simp [handleFetchError, ht, hm]
    exact ⟨h1, by rw [h1]; exact substr_suffix corsMsgPrefix url⟩
  · intro h
    simp only [handleFetchError, h]
    rfl

/-- Witness for C5 (amended) at a concrete `TypeError` and a concrete
plain error. -/
theorem network_error_classification_witness :
    (handleFetchError "https://u" ⟨true, "Failed to fetch"⟩ =
        ⟨false, corsMsgPrefix ++ "https://u"⟩
      ∧ Substr (handleFetchError "https://u" ⟨true, "Failed to fetch"⟩).message "https://u")
    ∧ handleFetchError "https://u" ⟨false, "SyntaxError: boom"⟩ =
        ⟨false, "SyntaxError: boom"⟩ := by
  refine ⟨(network_error_classification "https://u" ⟨true, "Failed to fetch"⟩).1
      (by decide) (by decide),
    (network_error_classification "https://u" ⟨false, "SyntaxError: boom"⟩).2 (by decide)⟩

/-! ## C6: download contract -/

/-- C6: for every icon hash, `downloadIconSVG` issues a GET to exactly
`<base>/icons/<hash>/download/svg?size=48&responsive=false` (the base
being the origin-resolved proxy path `/api/streamline`) with the
`image/svg+xml` accept header; an ok response returns the body as text;
any non-ok status fails with message `Failed to download SVG: <status>`. -/
theorem download_contract (origin iconHash : String) (resp : HttpResponse) :
    (downloadIconSVG origin iconHash resp).1.url =
      origin ++ "/api/streamline" ++ "/icons/" ++ iconHash ++ "/download/svg?size=48&responsive=false"
    ∧ (downloadIconSVG origin iconHash resp).1.method = "GET"
    ∧ (downloadIconSVG origin iconHash resp).1.accept = "image/svg+xml"
    ∧ (respOk resp = true → (downloadIconSVG origin iconHash resp).2 = .ok resp.body)
    ∧ (respOk resp = false → (downloadIconSVG origin iconHash resp).2 =
        .error ⟨false, "Failed to download SVG: " ++ toString resp.status⟩) := by
  refine ⟨?_, rfl, rfl, ?_, ?_⟩
  · have hsw : jsStartsWith "/api/streamline" "/" = true := by decide
    simp [downloadIconSVG, downloadUrl, streamlineBaseUrl, hsw]
  · intro h; simp [downloadIconSVG, h]
  · intro h; simp [downloadIconSVG, h]

/-- Witness for C6 at a concrete hash, an ok response and a 404. -/
theorem download_contract_witness :
    (downloadIconSVG "https://localhost:3000" "abc123" ⟨200, "OK", "<svg/>"⟩).1.url =
      "https://localhost:3000" ++ "/api/streamline" ++ "/icons/" ++ "abc123" ++ "/download/svg?size=48&responsive=false"
    ∧ respOk ⟨200, "OK", "<svg/>"⟩ = true
    ∧ (downloadIconSVG "https://localhost:3000" "abc123" ⟨200, "OK", "<svg/>"⟩).2 = .ok "<svg/>"
    ∧ respOk ⟨404, "Not Found", ""⟩ = false
    ∧ (downloadIconSVG "https://localhost:3000" "abc123" ⟨404, "Not Found", ""⟩).2 =
        .error ⟨false, "Failed to download SVG: " ++ toString 404⟩ := by
  refine ⟨(download_contract "https://localhost:3000" "abc123" ⟨200, "OK", "<svg/>"⟩).1,
    by decide,
    (download_contract "https://localhost:3000" "abc123" ⟨200, "OK", "<svg/>"⟩).2.2.2.1 (by decide),
    by decide,
    (download_contract "https://localhost:3000" "abc123" ⟨404, "Not Found", ""⟩).2.2.2.2 (by decide)⟩

/-! ## C7: results-count label -/

/-- C7: count 0 gives "No icons found"; count 1 gives "1 icon found";
count N>1 gives "<N> icons found" (N rendered by `toLocaleString`) and,
when page and totalPages are known, ends with " (Page <p> of <t>)" where
`p = floor(offset/100)+1` and `t = ceil(total/100)` at `performSearch`'s
call site; in particular `{total := 250, offset := 0}` yields
"250 icons found (Page 1 of 3)". -/
theorem results_count_label (count p t total offset : Nat) :
    updateResultsCount 0 none (some p) (some t) = "No icons found"
    ∧ updateResultsCount 1 none (some p) (some t) = "1 icon found"
    ∧ (1 < count →
        updateResultsCount count none none none = toLocaleString count ++ " icons found")
    ∧ (1 < count → p ≠ 0 → t ≠ 0 →
        updateResultsCount count none (some p) (some t) =
          toLocaleString count ++ " icons found" ++ " (Page " ++ toString p ++ " of " ++
            toString t ++ ")")
    ∧ (1 < total → searchResultLabel total offset =
        toLocaleString total ++ " icons found" ++ " (Page " ++ toString (offset / 100 + 1) ++
          " of " ++ toString ((total + 99) / 100) ++ ")")
    ∧ searchResultLabel 250 0 = "250 icons found (Page 1 of 3)" := by
  refine ⟨rfl, rfl, ?_, ?_, ?_, by decide⟩
  · intro hc
    have h0 : count ≠ 0 := by omega
    have h1 : count ≠ 1 := by omega
    simp [updateResultsCount, h0, h1]
  · intro hc hp ht
    have h0 : count ≠ 0 := by omega
    have h1 : count ≠ 1 := by omega
    simp [updateResultsCount, h0, h1, hp, ht]
  · intro htotal
    have hp : offset / 100 + 1 ≠ 0 := by omega
    have ht : (total + 99) / 100 ≠ 0 := by omega
    have h0 : total ≠ 0 := by omega
    have h1 : total ≠ 1 := by omega
    simp [searchResultLabel, updateResultsCount, h0, h1, hp, ht]

/-- Witness for C7 at count 2, page 1 of 1, and the 250/0 pagination. -/
theorem results_count_label_witness :
    updateResultsCount 0 none (some 1) (some 1) = "No icons found"
    ∧ updateResultsCount 1 none (some 1) (some 1) = "1 icon found"
    ∧ updateResultsCount 2 none none none = toLocaleString 2 ++ " icons found"
    ∧ updateResultsCount 2 none (some 1) (some 1) =
        toLocaleString 2 ++ " icons found" ++ " (Page " ++ toString 1 ++ " of " ++
          toString 1 ++ ")"
    ∧ searchResultLabel 250 0 =
        toLocaleString 250 ++ " icons found" ++ " (Page " ++ toString (0 / 100 + 1) ++
          " of " ++ toString ((250 + 99) / 100) ++ ")"
    ∧ searchResultLabel 250 0 = "250 icons found (Page 1 of 3)" := by
  have h := results_count_label 2 1 1 250 0
  exact ⟨h.1, h.2.1, h.2.2.1 (by omega), h.2.2.2.1 (by omega) (by omega) (by omega),
    h.2.2.2.2.1 (by omega), h.2.2.2.2.2⟩

/-! ## C8: empty-query guard -/

/-- C8: for every query text that is empty or consists only of
whitespace, `performSearch` issues no network request, shows the idle
prompt, and leaves the controller state untouched. -/
theorem empty_query_guard (st : ControllerState) (v : String)
    (outcome : Except JsError StreamlineSearchResponse)
    (hL : st.isLoading = false) (hw : v.data.all isJsWhitespace = true) :
    performSearch st v outcome = (st, { noView with idlePrompt := true })
    ∧ (performSearch st v outcome).2.request = none
    ∧ (performSearch st v outcome).2.idlePrompt = true
    ∧ searchRequestOf v = none := by
  have ht : jsTrim v = "" := jsTrim_of_all_whitespace v hw
  have h1 : performSearch st v outcome = (st, { noView with idlePrompt := true }) := by
    simp [performSearch, hL, ht]
  exact ⟨h1, by simp [h1, noView], by simp [h1], by simp [searchRequestOf, ht]⟩

/-- Witness for C8 at a three-space query. -/
theorem empty_query_guard_witness :
    (⟨[], 1, false⟩ : ControllerState).isLoading = false
    ∧ ("   " : String).data.all isJsWhitespace = true
    ∧ performSearch ⟨[], 1, false⟩ "   " (.error ⟨false, "x"⟩) =
        (⟨[], 1, false⟩, { noView with idlePrompt := true })
    ∧ searchRequestOf "   " = none := by
  have h := empty_query_guard ⟨[], 1, false⟩ "   " (.error ⟨false, "x"⟩) rfl (by decide)
  exact ⟨rfl, by decide, h.1, h.2.2.2⟩

/-! ## C10: icon mapping -/

/-- C10: for every catalog search result record, the stored and rendered
`Icon` copies `hash` and `name` verbatim, takes `family` from
`familySlug`, `category` from `categoryName` or — when that is falsy
(empty) — `familyName`, `svgUrl` from `imagePreviewUrl`, and has an empty
`tags` sequence regardless of the record's content; `performSearch`
stores and renders exactly the image of `toIcon` over the response's
results. -/
theorem icon_mapping (s : StreamlineIcon) (st : ControllerState) (v : String)
    (r : StreamlineSearchResponse) :
    (toIcon s).hash = s.hash
    ∧ (toIcon s).name = s.name
    ∧ (toIcon s).family = s.familySlug
    ∧ (toIcon s).svgUrl = some s.imagePreviewUrl
    ∧ (toIcon s).tags = []
    ∧ (s.categoryName ≠ "" → (toIcon s).category = s.categoryName)
    ∧ (s.categoryName = "" → (toIcon s).category = s.familyName)
    ∧ (st.isLoading = false → jsTrim v ≠ "" →
        (performSearch st v (.ok r)).1.currentIcons = r.results.map toIcon
        ∧ (performSearch st v (.ok r)).2.gridIcons = some (r.results.map toIcon)) := by
  refine ⟨rfl, rfl, rfl, rfl, rfl, ?_, ?_, ?_⟩
  · intro h; simp [toIcon, h]
  · intro h; simp [toIcon, h]
  · intro hL ht
    constructor <;> simp [performSearch, hL, ht]

/-- Witness for C10 at records with a present and with an empty
`categoryName`, and at a concrete one-result search. -/
theorem icon_mapping_witness :
    (toIcon ⟨"h1", "Arrow", "u1", true, "streamline-light", "Streamline Light",
        "cs", "Arrows", "ss", "sn"⟩).category = "Arrows"
    ∧ (toIcon ⟨"h1", "Arrow", "u1", true, "streamline-light", "Streamline Light",
        "cs", "", "ss", "sn"⟩).category = "Streamline Light"
    ∧ (performSearch ⟨[], 1, false⟩ "arrow"
        (.ok ⟨"arrow", [⟨"h1", "Arrow", "u1", true, "streamline-light", "Streamline Light",
            "cs", "Arrows", "ss", "sn"⟩], ⟨1, false, 0, 0⟩⟩)).1.currentIcons =
      [⟨"h1", "Arrow", "u1", true, "streamline-light", "Streamline Light",
          "cs", "Arrows", "ss", "sn"⟩].map toIcon := by
  refine ⟨(icon_mapping ⟨"h1", "Arrow", "u1", true, "streamline-light", "Streamline Light",
      "cs", "Arrows", "ss", "sn"⟩ ⟨[], 1, false⟩ "arrow"
      ⟨"arrow", [], ⟨0, false, 0, 0⟩⟩).2.2.2.2.2.1 (by decide), ?_, ?_⟩
  · exact (icon_mapping ⟨"h1", "Arrow", "u1", true, "streamline-light", "Streamline Light",
      "cs", "", "ss", "sn"⟩ ⟨[], 1, false⟩ "arrow"
      ⟨"arrow", [], ⟨0, false, 0, 0⟩⟩).2.2.2.2.2.2.1 rfl
  · exact ((icon_mapping ⟨"h1", "Arrow", "u1", true, "streamline-light", "Streamline Light",
      "cs", "Arrows", "ss", "sn"⟩ ⟨[], 1, false⟩ "arrow"
      (⟨"arrow", [⟨"h1", "Arrow", "u1", true, "streamline-light", "Streamline Light",
          "cs", "Arrows", "ss", "sn"⟩], ⟨1, false, 0, 0⟩⟩ :
        StreamlineSearchResponse)).2.2.2.2.2.2.2 rfl (by decide)).1

/-! ## C1: single-flight search -/

/-- A valid step preserves the in-flight bookkeeping: the ghost counter
equals 1 exactly while `isLoading` holds. -/
theorem mstep_inFlight (s : MState) (e : SEv)
    (hs : s.inFlight = (if s.isLoading then 1 else 0))
    (hv : match e with | .settle _ => 1 ≤ s.inFlight | .trigger _ => True) :
    (mstep s e).1.inFlight = (if (mstep s e).1.isLoading then 1 else 0) := by
  cases e with
  | trigger v =>
    by_cases hL : s.isLoading
    · simpa [mstep, hL] using hs
    · simp only [Bool.not_eq_true] at hL
      cases hreq : searchRequestOf v with
      | none => simpa [mstep, hL, hreq] using hs
      | some r =>
        simp only [mstep, hL, hreq, Bool.false_eq_true, if_false]
        simp [hL] at hs
        simp [hs]
  | settle ok =>
    have hv1 : 1 ≤ s.inFlight := hv
    by_cases hL : s.isLoading
    · rw [hL] at hs
      simp only [if_true] at hs
      simp [mstep, hs]
    · simp only [Bool.not_eq_true] at hL
      rw [hL] at hs
      simp only [Bool.false_eq_true, if_false] at hs
      exact absurd hv1 (by omega)

/-- Over any valid trace the in-flight bookkeeping is an invariant. -/
theorem runTrace_invariant (evs : List SEv) : ∀ s : MState,
    s.inFlight = (if s.isLoading then 1 else 0) → validFrom s evs = true →
    (runTrace s evs).1.inFlight = (if (runTrace s evs).1.isLoading then 1 else 0) := by
  induction evs with
  | nil => intro s hs _; simpa [runTrace] using hs
  | cons e rest ih =>
    intro s hs hv
    simp only [validFrom, Bool.and_eq_true] at hv
    obtain ⟨hv1, hv2⟩ := hv
    simp only [runTrace]
    refine ih (mstep s e).1 (mstep_inFlight s e hs ?_) hv2
    cases e with
    | trigger v => trivial
    | settle ok => simpa using hv1

/-- C1: at most one search request is in flight at any time; a trigger
while `isLoading` is a no-op (dropped, not queued); settlement — success
or failure — clears `isLoading`; and a trigger arriving after settlement
with a non-blank input dispatches a new request. -/
theorem single_flight (evs : List SEv)
    (hval : validFrom initMState evs = true) :
    (runTrace initMState evs).1.inFlight ≤ 1
    ∧ (∀ s v, s.isLoading = true → mstep s (.trigger v) = (s, []))
    ∧ (∀ s ok, ((mstep s (.settle ok)).1).isLoading = false)
    ∧ (∀ s ok v, jsTrim v ≠ "" →
        (mstep (mstep s (.settle ok)).1 (.trigger v)).2 =
          [searchFamilyRequest "streamline-light" (some (jsTrim v)) 1 100]) := by
  refine ⟨?_, ?_, ?_, ?_⟩
  · have h := runTrace_invariant evs initMState (by simp [initMState]) hval
    rw [h]; split <;> omega
  · intro s v hL; simp [mstep, hL]
  · intro s ok; simp [mstep]
  · intro s ok v hv
    simp [mstep, searchRequestOf_of_ne v hv]

/-- Witness for C1 on the trace trigger–settle–trigger and concrete
loading states. -/
theorem single_flight_witness :
    validFrom initMState [SEv.trigger "arrow", SEv.settle true, SEv.trigger "boom"] = true
    ∧ (runTrace initMState
        [SEv.trigger "arrow", SEv.settle true, SEv.trigger "boom"]).1.inFlight ≤ 1
    ∧ mstep ⟨true, 1, 1⟩ (SEv.trigger "x") = (⟨true, 1, 1⟩, [])
    ∧ ((mstep ⟨true, 1, 1⟩ (SEv.settle false)).1).isLoading = false
    ∧ jsTrim "next" ≠ ""
    ∧ (mstep (mstep ⟨true, 1, 1⟩ (SEv.settle false)).1 (SEv.trigger "next")).2 =
        [searchFamilyRequest "streamline-light" (some (jsTrim "next")) 1 100] := by
  have h := single_flight [SEv.trigger "arrow", SEv.settle true, SEv.trigger "boom"]
    (by decide)
  exact ⟨by decide, h.1, h.2.1 ⟨true, 1, 1⟩ "x" rfl, h.2.2.1 ⟨true, 1, 1⟩ false,
    by decide, h.2.2.2 ⟨true, 1, 1⟩ false "next" (by decide)⟩

/-! ## C9: fixed family slug and page -/

/-- A request produced by `searchRequestOf` always targets
`streamline-light` at page 1. -/
theorem searchRequestOf_fields (v : String) (r : SearchRequest)
    (h : searchRequestOf v = some r) :
    r.familySlug = "streamline-light" ∧ r.page = 1 := by
  unfold searchRequestOf at h
  by_cases ht : jsTrim v = ""
  · simp [ht] at h
  · simp only [ht, if_neg, if_false] at h
    simp at h
    rw [← h]
    exact ⟨rfl, rfl⟩

/-- One step emits only `streamline-light`/page-1 requests and keeps
`currentPage` at 1. -/
theorem mstep_requests (s : MState) (e : SEv) :
    (∀ r ∈ (mstep s e).2, r.familySlug = "streamline-light" ∧ r.page = 1)
    ∧ (s.currentPage = 1 → (mstep s e).1.currentPage = 1) := by
  cases e with
  | trigger v =>
    by_cases hL : s.isLoading
    · simp [mstep, hL]
    · simp only [Bool.not_eq_true] at hL
      cases hreq : searchRequestOf v with
      | none => simp [mstep, hL, hreq]
      | some r =>
        have hr := searchRequestOf_fields v r hreq
        simp [mstep, hL, hreq, hr.1, hr.2]
  | settle ok => simp [mstep]

/-- Over any trace from a page-1 state, every emitted request targets
`streamline-light` at page 1 and `currentPage` stays 1. -/
theorem runTrace_requests (evs : List SEv) : ∀ s : MState, s.currentPage = 1 →
    (∀ r ∈ (runTrace s evs).2, r.familySlug = "streamline-light" ∧ r.page = 1)
    ∧ (runTrace s evs).1.currentPage = 1 := by
  induction evs with
  | nil =>
    intro s hs
    refine ⟨?_, by simpa [runTrace] using hs⟩
    intro r hr
    simp [runTrace] at hr
  | cons e rest ih =>
    intro s hs
    have hm := mstep_requests s e
    have hrec := ih (mstep s e).1 (hm.2 hs)
    refine ⟨?_, by simp only [runTrace]; exact hrec.2⟩
    intro r hr
    simp only [runTrace, List.mem_append] at hr
    rcases hr with h | h
    · exact hm.1 r h
    · exact hrec.1 r h

/-- C9: every search request the controller ever issues targets the fixed
family slug `streamline-light` with page 1, and the page counter is never
anything but 1: only the first page of any query is ever requested. -/
theorem fixed_family_page (evs : List SEv) :
    (∀ r ∈ (runTrace initMState evs).2,
      r.familySlug = "streamline-light" ∧ r.page = 1)
    ∧ (runTrace initMState evs).1.currentPage = 1 :=
  runTrace_requests evs initMState rfl

/-- Witness for C9 on a one-trigger trace with its concrete emitted
request. -/
theorem fixed_family_page_witness :
    searchFamilyRequest "streamline-light" (some "arrow") 1 100 ∈
      (runTrace initMState [SEv.trigger "arrow"]).2
    ∧ (searchFamilyRequest "streamline-light" (some "arrow") 1 100).familySlug =
        "streamline-light"
    ∧ (searchFamilyRequest "streamline-light" (some "arrow") 1 100).page = 1
    ∧ (runTrace initMState [SEv.trigger "arrow"]).1.currentPage = 1 := by
  have h := fixed_family_page [SEv.trigger "arrow"]
  have hm : searchFamilyRequest "streamline-light" (some "arrow") 1 100 ∈
      (runTrace initMState [SEv.trigger "arrow"]).2 := by decide
  exact ⟨hm, (h.1 _ hm).1, (h.1 _ hm).2, h.2⟩

/-! ## C2: debounced dispatch -/

/-- An input event arriving before a pending timer's deadline cancels it
and schedules a fresh timer 500 ms out, preserving the fired list. -/
theorem stepInput_no_fire (f t : Nat) (v text : String) (fs : List (Nat × String))
    (h : t < f) :
    stepInput ⟨some f, v, fs⟩ t text = ⟨some (t + 500), text, fs⟩ := by
  simp [stepInput, Nat.not_le.mpr h]

/-- Within a burst (consecutive events under 500 ms apart) no
intermediate timer fires: the fold just carries the latest deadline and
field value forward. -/
theorem foldl_burst (rest : List (Nat × String)) : ∀ (tprev : Nat) (v : String)
    (fs : List (Nat × String)), burstFrom tprev rest = true →
    rest.foldl (fun s p => stepInput s p.1 p.2) ⟨some (tprev + 500), v, fs⟩ =
      ⟨some ((lastEvent (tprev, v) rest).1 + 500), (lastEvent (tprev, v) rest).2, fs⟩ := by
  induction rest with
  | nil => intro tprev v fs _; simp [lastEvent]
  | cons q rest ih =>
    intro tprev v fs hb
    obtain ⟨u, text⟩ := q
    simp only [burstFrom, Bool.and_eq_true, decide_eq_true_eq] at hb
    obtain ⟨⟨h1, h2⟩, h3⟩ := hb
    rw [List.foldl_cons]
    simp only [lastEvent]
    rw [stepInput_no_fire (tprev + 500) u v text fs (by omega)]
    exact ih u text fs h3

/-- C2 (amended): every input event cancels any previously scheduled
search timer and schedules a new one 500 ms out; hence for any sequence
of input events in which *consecutive events are less than 500 ms apart*,
ending in a quiet period of at least 500 ms, with a non-blank final text,
exactly one search is issued, using the (trimmed) final text value and
page 1. -/
theorem debounce_burst_single (t0 : Nat) (s0 : String) (rest : List (Nat × String))
    (hb : burstFrom t0 rest = true)
    (hq : jsTrim (lastEvent (t0, s0) rest).2 ≠ "") :
    (∀ s t text, (stepInput s t text).pending = some (t + 500))
    ∧ debounceFires ((t0, s0) :: rest) =
        [((lastEvent (t0, s0) rest).1 + 500, (lastEvent (t0, s0) rest).2)]
    ∧ debouncedSearches ((t0, s0) :: rest) =
        [searchFamilyRequest "streamline-light"
          (some (jsTrim (lastEvent (t0, s0) rest).2)) 1 100] := by
  have h0 : stepInput ⟨none, "", []⟩ t0 s0 = ⟨some (t0 + 500), s0, []⟩ := by
    simp [stepInput]
  have hfires : debounceFires ((t0, s0) :: rest) =
      [((lastEvent (t0, s0) rest).1 + 500, (lastEvent (t0, s0) rest).2)] := by
    simp only [debounceFires, List.foldl_cons, h0, foldl_burst rest t0 s0 [] hb,
      List.nil_append]
  refine ⟨fun s t text => by simp [stepInput], hfires, ?_⟩
  simp [debouncedSearches, hfires, searchRequestOf_of_ne _ hq]

/-- Witness for C2 (amended) on a three-keystroke burst typing "hello". -/
theorem debounce_burst_single_witness :
    burstFrom 0 [(100, "hell"), (450, "hello")] = true
    ∧ jsTrim (lastEvent (0, "hel") [(100, "hell"), (450, "hello")]).2 ≠ ""
    ∧ (stepInput ⟨some 500, "x", []⟩ 300 "y").pending = some (300 + 500)
    ∧ debounceFires [(0, "hel"), (100, "hell"), (450, "hello")] =
        [((lastEvent (0, "hel") [(100, "hell"), (450, "hello")]).1 + 500,
          (lastEvent (0, "hel") [(100, "hell"), (450, "hello")]).2)]
    ∧ debouncedSearches [(0, "hel"), (100, "hell"), (450, "hello")] =
        [searchFamilyRequest "streamline-light"
          (some (jsTrim (lastEvent (0, "hel") [(100, "hell"), (450, "hello")]).2)) 1 100] := by
  have h := debounce_burst_single 0 "hel" [(100, "hell"), (450, "hello")]
    (by decide) (by decide)
  exact ⟨by decide, by decide, h.1 ⟨some 500, "x", []⟩ 300 "y", h.2.1, h.2.2⟩

/-- C2 counterexample: an input sequence ending in a quiet period of at
least 500 ms for which *two* searches are issued, not exactly one — the
two events are 1000 ms apart, so the first timer fires with the
intermediate text before the second event reschedules. -/
theorem debounce_gap_counterexample :
    strictTrace [(0, "a"), (1000, "ab")] = true
    ∧ jsTrim "ab" ≠ ""
    ∧ debouncedSearches [(0, "a"), (1000, "ab")] =
        [searchFamilyRequest "streamline-light" (some "a") 1 100,
         searchFamilyRequest "streamline-light" (some "ab") 1 100]
    ∧ (debouncedSearches [(0, "a"), (1000, "ab")]).length ≠ 1 := by
  refine ⟨by decide, by decide, by decide, by decide⟩

/-- Witness for C3 at a concrete icon and concrete write outcomes. -/
theorem clipboard_two_tier_witness :
    (clipboardCopy "<svg/>" "Arrow Right" (.ok ()) (.ok ())).outcome =
        .ok ("Arrow Right" ++ " SVG icon copied to clipboard! Press Ctrl+V to paste in PowerPoint.")
    ∧ (clipboardCopy "<svg/>" "Arrow Right" (.error ⟨false, "nope"⟩) (.ok ())).outcome =
        .ok ("Arrow Right" ++ " SVG copied as text to clipboard! Press Ctrl+V to paste.")
    ∧ (clipboardCopy "<svg/>" "Arrow Right" (.error ⟨false, "nope"⟩)
        (.error ⟨false, "boom"⟩)).outcome = .error ⟨false, "boom"⟩ := by
  have h := clipboard_two_tier "<svg/>" "Arrow Right" (.ok ()) ⟨false, "nope"⟩
    ⟨false, "boom"⟩
  exact ⟨h.2.2.2.1, h.2.2.2.2.2.1, h.2.2.2.2.2.2.2.2.2⟩
